import Mathlib

/-!
Shallow embedding of `src/src/vmm/src/devices/net/virtio_net.rs` (crate `lumper`):
the virtio-net MMIO device. Machine integers are modelled as `Nat` with explicit
`% 2^w` where the Rust code truncates or wraps; a byte buffer is a `List Nat`
whose entries are read modulo 256. Fallible paths are explicit: `RegResult.ok`
is a normal return, `RegResult.registerError` is `Err(VirtioNetError::RegisterError)`,
and `RegResult.panicked` marks a Rust panic (slice-index out of range,
`copy_from_slice` length mismatch, `Vec` index out of bounds).
-/

/-- Little-endian byte encoding: `leBytes w n` is the `w`-byte little-endian
encoding of `n`, as `to_le_bytes` produces in the source. -/
def leBytes : Nat → Nat → List Nat
  | 0, _ => []
  | w + 1, n => (n % 256) :: leBytes w (n / 256)

/-- Little-endian byte decoding, as `from_le_bytes` consumes in the source.
Entries are reduced mod 256 since the model carries bytes as `Nat`. -/
def fromLeBytes : List Nat → Nat
  | [] => 0
  | b :: bs => b % 256 + 256 * fromLeBytes bs

/-- Result of a register access. `registerError` is
`Err(VirtioNetError::RegisterError)`; `panicked` marks a Rust panic reached
before the access could complete. -/
inductive RegResult (α : Type) where
  | ok (val : α)
  | registerError
  | panicked
deriving DecidableEq

/-- Modelled from the spec (§3 Virtqueue) and the `virtio-queue` crate surface
the source calls: ring size (`set_size`) and the descriptor-table guest address
kept as two 32-bit halves (`set_desc_table_address` receives an optional value
for each half and leaves an absent half unchanged). -/
structure Queue where
  size : Nat
  desc_table_lo : Nat
  desc_table_hi : Nat
deriving DecidableEq, Inhabited

/-- Modelled from the spec: `virtio_queue::Queue::set_size`, a plain store of
the 16-bit ring size. -/
def Queue.set_size (q : Queue) (v : Nat) : Queue :=
  { q with size := v % 65536 }

/-- Modelled from the spec: `virtio_queue::Queue::set_desc_table_address`,
which stores each provided 32-bit half of the descriptor-table guest address
and leaves an absent half unchanged. -/
def Queue.set_desc_table_address (q : Queue) (lo hi : Option Nat) : Queue :=
  { q with
    desc_table_lo := lo.getD q.desc_table_lo
    desc_table_hi := hi.getD q.desc_table_hi }

/-- Modelled from the spec (§2 VirtioConfig): the `virtio-device` crate's
`VirtioConfig` fields the source reads and writes — 64-bit offered and
driver-accepted feature bitmasks, the two 32-bit feature-half selectors, the
device-status byte, the selected queue index, the queue vector, the
config-space bytes and the interrupt-status bitmask. -/
structure VirtioConfig where
  device_features : Nat
  driver_features : Nat
  device_features_select : Nat
  driver_features_select : Nat
  device_status : Nat
  queue_select : Nat
  queues : List Queue
  config_space : List Nat
  interrupt_status : Nat
deriving DecidableEq

/-- Modelled from the spec: `VirtioConfig::new(device_features, queues,
config_space)` of the `virtio-device` crate stores its three arguments and
zero-initialises every other field. -/
def VirtioConfig.new (device_features : Nat) (queues : List Queue)
    (config_space : List Nat) : VirtioConfig :=
  { device_features := device_features
    driver_features := 0
    device_features_select := 0
    driver_features_select := 0
    device_status := 0
    queue_select := 0
    queues := queues
    config_space := config_space
    interrupt_status := 0 }

/-- `VirtioNetConfig` (source lines 34–37): the device-private state, the
legacy guest page size (a `u16` in the source) next to the generic
`VirtioConfig`. -/
structure VirtioNetConfig where
  guest_page_size : Nat
  virtio_config : VirtioConfig
deriving DecidableEq

/-- `virtio_net::virtio_net_config` (from `virtio_bindings`): the virtio-net
configuration-space struct — 6 MAC bytes, 16-bit status, 16-bit
max_virtqueue_pairs, 16-bit MTU, 32-bit speed, 8-bit duplex. -/
structure virtio_net_config where
  mac : List Nat
  status : Nat
  max_virtqueue_pairs : Nat
  mtu : Nat
  speed : Nat
  duplex : Nat

/-- Feature-bit numbers from the `virtio_bindings` crate (generated from the
Linux `virtio_net.h` header): each constant is the BIT INDEX of the feature,
not a mask. -/
def VIRTIO_NET_F_CSUM : Nat := 0
def VIRTIO_NET_F_GUEST_CSUM : Nat := 1
def VIRTIO_NET_F_MTU : Nat := 3
def VIRTIO_NET_F_MAC : Nat := 5
def VIRTIO_NET_F_STATUS : Nat := 16
def VIRTIO_NET_F_SPEED_DUPLEX : Nat := 63

/-- `VirtioNetConfig::config_vec` (source lines 61–70): serialises the
configuration struct into the little-endian byte vector — MAC bytes, then
status, max_virtqueue_pairs and MTU as 2 bytes each, speed as 4 bytes, duplex
as 1 byte. -/
def VirtioNetConfig.config_vec (c : virtio_net_config) : List Nat :=
  c.mac ++ leBytes 2 c.status ++ leBytes 2 c.max_virtqueue_pairs
    ++ leBytes 2 c.mtu ++ leBytes 4 c.speed ++ leBytes 1 c.duplex

/-- `VirtioNetConfig::new` (source lines 40–59). The offered feature bitmask is
the OR of the raw `virtio_bindings` constants — the bit NUMBERS 16, 5, 63 and 3
OR-ed together as integers, exactly as the source writes it. The queue vector
passed to `VirtioConfig::new` is `vec![]`, and the config space serialises MAC
`[13;6]`, status 0, max_virtqueue_pairs 0, MTU 1500, speed 1000, duplex 1. -/
def VirtioNetConfig.new : VirtioNetConfig :=
  { virtio_config :=
      VirtioConfig.new
        (VIRTIO_NET_F_STATUS ||| VIRTIO_NET_F_MAC
          ||| VIRTIO_NET_F_SPEED_DUPLEX ||| VIRTIO_NET_F_MTU)
        []
        (VirtioNetConfig.config_vec
          { mac := [13, 13, 13, 13, 13, 13]
            status := 0
            max_virtqueue_pairs := 0
            mtu := 1500
            speed := 1000
            duplex := 1 })
    guest_page_size := 0 }

/-- The device state the MMIO methods act on. The Rust `VirtioNet<M>` also
carries the guest address space and the interrupt eventfd; neither is read or
written by any register path, so the embedding keeps only `device_config`. -/
structure VirtioNet where
  device_config : VirtioNetConfig
deriving DecidableEq

/-- `VirtioNet::new` (source lines 74–80): a fresh device around
`VirtioNetConfig::new`. -/
def VirtioNet.new : VirtioNet :=
  { device_config := VirtioNetConfig.new }

/-- `vm_device::VirtioMmioOffset`: the decoded legacy virtio-mmio register
identifiers the source matches on, each carrying the raw offset payload the
source ignores with `(_)`; `DeviceSpecific` carries the byte offset into the
device configuration space. -/
inductive VirtioMmioOffset where
  | MagicValue (o : Nat)
  | VirtioVersion (o : Nat)
  | DeviceId (o : Nat)
  | VendorId (o : Nat)
  | HostFeaturesSel (o : Nat)
  | HostFeatures (o : Nat)
  | GuestFeaturesSel (o : Nat)
  | GuestFeatures (o : Nat)
  | GuestPageSize (o : Nat)
  | QueueSel (o : Nat)
  | QueueNumMax (o : Nat)
  | QueueNum (o : Nat)
  | QueueAlign (o : Nat)
  | QueuePfn (o : Nat)
  | QueueNotify (o : Nat)
  | InterruptStatus (o : Nat)
  | InterruptAck (o : Nat)
  | Status (o : Nat)
  | DeviceSpecific (o : Nat)
deriving DecidableEq

/-- Bitwise NOT on a 64-bit `usize`, as the `!` operator in
`!(*offset as usize)` computes: `!x = 2^64 - 1 - x`. -/
def usizeNot (x : Nat) : Nat :=
  18446744073709551615 - x % 18446744073709551616

/-- `VirtioNet::is_reading_register` (source lines 82–88). For a
`DeviceSpecific` offset the source evaluates
`!(*offset as usize) < config_space.len() * 8`: unary `!` is bitwise NOT on
`usize` and binds tighter than `<`, so the comparison is
`(!offset) < len * 8`; every other offset yields `true`. -/
def VirtioNet.is_reading_register (s : VirtioNet) (offset : VirtioMmioOffset) : Bool :=
  match offset with
  | .DeviceSpecific o =>
      decide (usizeNot o < s.device_config.virtio_config.config_space.length * 8)
  | _ => true

/-- `VirtioNet::register_write` (source lines 90–209). Each arm first decodes
its field from `data`: the slice expression `data[0..k]` panics when the
buffer is shorter than `k`; with `k` bytes present, `try_into` to a `[u8; k]`
array always succeeds, so the `map_err(RegisterError)` branch of those arms is
dead — except in the `GuestFeatures` arm, where the source feeds the 4-byte
slice `data[0..4]` to `u64::from_le_bytes`, whose `[u8; 8]` conversion always
fails, so that arm always returns `RegisterError`. `QueueNum` and `QueuePfn`
index `queues[queue_select]`, a panic when the index is out of bounds
(`QueueNum` evaluates the receiver index before the argument slice). The
`QueuePfn` product `queue_pfn * guest_page_size as u32` is 32-bit arithmetic,
modelled wrapping. `QueueAlign`, `QueueNotify`, `InterruptAck` and `Status`
only print and change nothing; unmatched offsets return `RegisterError`. -/
def VirtioNet.register_write (s : VirtioNet) (offset : VirtioMmioOffset)
    (data : List Nat) : RegResult VirtioNet :=
  match offset with
  | .HostFeaturesSel _ =>
      if data.length < 4 then .panicked
      else .ok { s with
        device_config.virtio_config.device_features_select :=
          fromLeBytes (data.take 4) }
  | .GuestFeatures _ =>
      -- u64::from_le_bytes(data[0..4].try_into()): a 4-byte slice never
      -- converts to [u8; 8], so after the slice bound is checked the arm
      -- unconditionally takes the map_err branch.
      if data.length < 4 then .panicked
      else .registerError
  | .GuestFeaturesSel _ =>
      if data.length < 4 then .panicked
      else .ok { s with
        device_config.virtio_config.driver_features_select :=
          fromLeBytes (data.take 4) }
  | .GuestPageSize _ =>
      if data.length < 2 then .panicked
      else .ok { s with
        device_config.guest_page_size := fromLeBytes (data.take 2) }
  | .QueueSel _ =>
      if data.length < 4 then .panicked
      else .ok { s with
        device_config.virtio_config.queue_select :=
          fromLeBytes (data.take 4) % 65536 }
  | .QueueNum _ =>
      if s.device_config.virtio_config.queues.length ≤
          s.device_config.virtio_config.queue_select then .panicked
      else if data.length < 2 then .panicked
      else .ok { s with
        device_config.virtio_config.queues :=
          s.device_config.virtio_config.queues.set
            s.device_config.virtio_config.queue_select
            (Queue.set_size
              (s.device_config.virtio_config.queues.getD
                s.device_config.virtio_config.queue_select default)
              (fromLeBytes (data.take 2))) }
  | .QueueAlign _ => .ok s
  | .QueuePfn _ =>
      if data.length < 4 then .panicked
      else if s.device_config.virtio_config.queues.length ≤
          s.device_config.virtio_config.queue_select then .panicked
      else .ok { s with
        device_config.virtio_config.queues :=
          s.device_config.virtio_config.queues.set
            s.device_config.virtio_config.queue_select
            (Queue.set_desc_table_address
              (s.device_config.virtio_config.queues.getD
                s.device_config.virtio_config.queue_select default)
              (some ((fromLeBytes (data.take 4) *
                (s.device_config.guest_page_size % 65536)) % 4294967296))
              none) }
  | .QueueNotify _ =>
      if data.length < 4 then .panicked
      else .ok s
  | .InterruptAck _ =>
      if data.length < 4 then .panicked
      else .ok s
  | .Status _ =>
      if data.length < 4 then .panicked
      else .ok s
  | _ => .registerError

/-- `<[u8]>::copy_from_slice` applied to the whole destination buffer: the
destination is overwritten by the source when the lengths agree, and the call
panics otherwise. -/
def copyFromSlice (dst src : List Nat) : RegResult (List Nat) :=
  if dst.length = src.length then .ok src else .panicked

/-- Modelled from the spec (§4.1 DeviceSpecific read): the `virtio-device`
crate's `VirtioDevice::read_config`, which the source calls for
`DeviceSpecific` offsets and which is not under `src/` — it copies bytes of
`config_space` starting at `offset` into the buffer, clamped to the
config-space extent; buffer positions past the extent are left unchanged. -/
def VirtioNet.read_config (s : VirtioNet) (offset : Nat) (data : List Nat) : List Nat :=
  data.mapIdx fun i b =>
    if offset + i < s.device_config.virtio_config.config_space.length then
      s.device_config.virtio_config.config_space.getD (offset + i) 0
    else b

/-- `VirtioNet::register_read` (source lines 211–273). Constant registers
return fixed little-endian words; `HostFeatures` returns the offered bitmask,
shifted right 32 bits when the last `HostFeaturesSel` write was non-zero,
truncated to 32 bits; `InterruptStatus` loads the interrupt bitmask but
DISCARDS the loaded value and writes the constant 0; `Status` returns the
device-status byte; `DeviceSpecific` delegates to `read_config`. Each
`copy_from_slice` panics unless the buffer is exactly 4 bytes. Unmatched
offsets return `RegisterError`. -/
def VirtioNet.register_read (s : VirtioNet) (field : VirtioMmioOffset)
    (data : List Nat) : RegResult (List Nat) :=
  match field with
  | .MagicValue _ => copyFromSlice data (leBytes 4 0x74726976)
  | .VirtioVersion _ => copyFromSlice data (leBytes 4 0x2)
  | .DeviceId _ => copyFromSlice data (leBytes 4 0x1)
  | .VendorId _ => copyFromSlice data (leBytes 4 0x1AF4)
  | .HostFeatures _ =>
      copyFromSlice data
        (leBytes 4
          ((if s.device_config.virtio_config.device_features_select ≠ 0 then
              s.device_config.virtio_config.device_features >>> 32
            else
              s.device_config.virtio_config.device_features) % 4294967296))
  | .QueueNumMax _ => copyFromSlice data (leBytes 4 0x1000)
  | .QueuePfn _ => copyFromSlice data (leBytes 4 0x12341234)
  | .InterruptStatus _ =>
      -- let interrupt_status = 0x0 as u32; the atomic load of the real
      -- bitmask on the next line is computed and its value dropped.
      copyFromSlice data (leBytes 4 0x0)
  | .Status _ =>
      copyFromSlice data (leBytes 4 (s.device_config.virtio_config.device_status % 256))
  | .DeviceSpecific o => .ok (s.read_config o data)
  | _ => .registerError

/-- `VirtioDeviceActions::activate` for `VirtioNet` (source lines 303–307):
the body prints and then unconditionally panics; the trailing `Ok(())` is
unreachable. -/
def VirtioNet.activate (_ : VirtioNet) : RegResult VirtioNet := .panicked

/-- `VirtioDeviceActions::reset` for `VirtioNet` (source lines 308–312):
the body prints and then unconditionally panics; the trailing `Ok(())` is
unreachable. -/
def VirtioNet.reset (_ : VirtioNet) : RegResult VirtioNet := .panicked

/-- `MutVirtioMmioDevice::virtio_mmio_read` (source lines 316–332): when
`is_reading_register` holds, dispatch to `register_read`; a `RegisterError` is
printed and the buffer is left as it was; when `is_reading_register` is
false the dispatch is skipped entirely and the buffer is returned unchanged.
`none` marks a panic escaping the dispatch. The returned state is paired with
the buffer as it is visible to the guest afterwards. -/
def VirtioNet.virtio_mmio_read (s : VirtioNet) (offset : VirtioMmioOffset)
    (data : List Nat) : Option (VirtioNet × List Nat) :=
  if s.is_reading_register offset then
    match s.register_read offset data with
    | .ok d => some (s, d)
    | .registerError => some (s, data)
    | .panicked => none
  else
    some (s, data)

/-- `MutVirtioMmioDevice::virtio_mmio_write` (source lines 334–350): when
`is_reading_register` holds, dispatch to `register_write`; a `RegisterError`
is printed and the state is left as it was; otherwise the dispatch is skipped.
`none` marks a panic escaping the dispatch. -/
def VirtioNet.virtio_mmio_write (s : VirtioNet) (offset : VirtioMmioOffset)
    (data : List Nat) : Option VirtioNet :=
  if s.is_reading_register offset then
    match s.register_write offset data with
    | .ok s' => some s'
    | .registerError => some s
    | .panicked => none
  else
    some s

/-- A device state of the shape the specification's lifecycle reaches after
negotiation and device activity: DRIVER_OK (bit value 4) in the status byte,
interrupt-status bits 0 and 1 pending, guest page size 4096 and one configured
queue of ring size 256 selected by `queue_select = 0`. The constructor of the
source cannot reach this state (its queue vector is empty and no register arm
stores the status byte); it exercises the register paths on the full state
space the claims quantify over. -/
def busyState : VirtioNet :=
  { device_config :=
      { guest_page_size := 4096
        virtio_config :=
          { device_features := 63
            driver_features := 0
            device_features_select := 0
            driver_features_select := 0
            device_status := 4
            queue_select := 0
            queues := [{ size := 256, desc_table_lo := 4096, desc_table_hi := 0 }]
            config_space := VirtioNetConfig.new.virtio_config.config_space
            interrupt_status := 3 } } }

/-- C1: the constructed config space is the claimed 17-byte little-endian
layout (MAC `[13;6]`, status 0, max_virtqueue_pairs 0, MTU 1500 = `dc 05`,
speed 1000 = `e8 03 00 00`, duplex 1) and `register_read` would serve it, but
the MMIO dispatch path never reaches it: `is_reading_register` computes
`(!offset) < 17 * 8`, which is false at offset 0, so `virtio_mmio_read`
returns the guest's buffer unchanged instead of the config bytes. -/
theorem config_read_skipped_at_mmio_dispatch :
    VirtioNetConfig.new.virtio_config.config_space =
      [13, 13, 13, 13, 13, 13, 0, 0, 0, 0, 220, 5, 232, 3, 0, 0, 1] ∧
    VirtioNet.new.register_read (.DeviceSpecific 0) [0, 0, 0, 0, 0, 0] =
      .ok [13, 13, 13, 13, 13, 13] ∧
    VirtioNet.new.is_reading_register (.DeviceSpecific 0) = false ∧
    VirtioNet.new.virtio_mmio_read (.DeviceSpecific 0) [0, 0, 0, 0, 0, 0] =
      some (VirtioNet.new, [0, 0, 0, 0, 0, 0]) := by decide

/-- C2: a Status write of 0 is a pure no-op — on a state with status byte 4,
pending interrupt bits 3 and a configured queue of size 256, the write returns
the state unchanged, and a subsequent Status read returns the old byte 4, not
0. Nothing is reset, cleared or unconfigured. -/
theorem status_zero_write_is_noop :
    busyState.virtio_mmio_write (.Status 0) [0, 0, 0, 0] = some busyState ∧
    busyState.device_config.virtio_config.device_status = 4 ∧
    busyState.device_config.virtio_config.interrupt_status = 3 ∧
    (busyState.device_config.virtio_config.queues.getD 0 default).size = 256 ∧
    busyState.register_read (.Status 0) [0, 0, 0, 0] = .ok [4, 0, 0, 0] := by decide

/-- C3: a Status write of DRIVER_OK (4) leaves the device state unchanged and
never reaches the activate hook — whose body, were it called, panics
unconditionally — and a QueueNotify write is an effect-free accepted no-op
both before DRIVER_OK (fresh device) and on a state whose status byte already
holds DRIVER_OK; no queue processing is ever triggered. -/
theorem driver_ok_write_does_not_activate :
    VirtioNet.new.virtio_mmio_write (.Status 0) [4, 0, 0, 0] = some VirtioNet.new ∧
    VirtioNet.new.activate = .panicked ∧
    VirtioNet.new.virtio_mmio_write (.QueueNotify 0) [1, 0, 0, 0] = some VirtioNet.new ∧
    busyState.virtio_mmio_write (.QueueNotify 0) [1, 0, 0, 0] = some busyState := by decide

/-- C4 counterexample: the offered feature bitmask fixed at construction is 63,
whose VERSION_1 bit (bit 32) is clear — the claim requires a mask containing
bit 32, so no reading of its two unnamed reserved bits can satisfy it. -/
theorem offered_features_lack_version1 :
    VirtioNetConfig.new.virtio_config.device_features = 63 ∧
    Nat.testBit VirtioNetConfig.new.virtio_config.device_features 32 = false := by decide

/-- C4 (amended): the offered feature bitmask equals the OR of the raw
`virtio_bindings` constants `VIRTIO_NET_F_STATUS | VIRTIO_NET_F_MAC |
VIRTIO_NET_F_SPEED_DUPLEX | VIRTIO_NET_F_MTU` — the bit numbers 16, 5, 63, 3
combined as integers, giving 63, i.e. bits 0 through 5 and nothing above.
VERSION_1 (bit 32) is not offered and neither are the claimed TSO/UFO offload
bits 7, 8, 10, 11, 12, 14; of the claimed bits, exactly CSUM (bit 0) and
GUEST_CSUM (bit 1) happen to be set, as a side effect of the raw OR, alongside
bits 2, 3 (the MTU constant), 4 and 5 (the MAC constant). -/
theorem offered_features_value :
    VirtioNetConfig.new.virtio_config.device_features =
      (VIRTIO_NET_F_STATUS ||| VIRTIO_NET_F_MAC
        ||| VIRTIO_NET_F_SPEED_DUPLEX ||| VIRTIO_NET_F_MTU) ∧
    VirtioNetConfig.new.virtio_config.device_features = 63 ∧
    VirtioNetConfig.new.virtio_config.device_features < 64 ∧
    Nat.testBit VirtioNetConfig.new.virtio_config.device_features 32 = false ∧
    Nat.testBit VirtioNetConfig.new.virtio_config.device_features
      VIRTIO_NET_F_CSUM = true ∧
    Nat.testBit VirtioNetConfig.new.virtio_config.device_features
      VIRTIO_NET_F_GUEST_CSUM = true ∧
    (Nat.testBit VirtioNetConfig.new.virtio_config.device_features 7 = false ∧
     Nat.testBit VirtioNetConfig.new.virtio_config.device_features 8 = false ∧
     Nat.testBit VirtioNetConfig.new.virtio_config.device_features 10 = false ∧
     Nat.testBit VirtioNetConfig.new.virtio_config.device_features 11 = false ∧
     Nat.testBit VirtioNetConfig.new.virtio_config.device_features 12 = false ∧
     Nat.testBit VirtioNetConfig.new.virtio_config.device_features 14 = false) := by
  decide

/-- C5: the read half of feature-half selection works (HostFeatures returns
the low word 63 under selector 0 and the high word 0 after a HostFeaturesSel
write of 1), but a GuestFeatures write of a 32-bit value always fails with
RegisterError — `u64::from_le_bytes` is applied to the 4-byte slice
`data[0..4]`, whose conversion to `[u8; 8]` never succeeds — so the MMIO write
is a no-op and the accepted-feature bitmask is never stored. -/
theorem guest_features_write_always_fails :
    VirtioNet.new.register_write (.GuestFeatures 0) [1, 0, 0, 0] = .registerError ∧
    VirtioNet.new.virtio_mmio_write (.GuestFeatures 0) [1, 0, 0, 0] = some VirtioNet.new ∧
    VirtioNet.new.register_read (.HostFeatures 0) [0, 0, 0, 0] = .ok [63, 0, 0, 0] ∧
    (match VirtioNet.new.register_write (.HostFeaturesSel 0) [1, 0, 0, 0] with
     | .ok s => s.register_read (.HostFeatures 0) [0, 0, 0, 0]
     | _ => .registerError) = .ok [0, 0, 0, 0] := by decide

/-- C6: an out-of-table access is indeed a logged RegisterError no-op (a write
to the read-only MagicValue register leaves the state unchanged), but a write
whose buffer is too short panics — `data[0..4]` on a 2-byte buffer is a
slice-bound violation reached before any error mapping — and the panic escapes
the `virtio_mmio_write` dispatch boundary instead of becoming RegisterError. -/
theorem short_write_buffer_panics :
    VirtioNet.new.register_write (.HostFeaturesSel 0) [1, 0] = .panicked ∧
    VirtioNet.new.virtio_mmio_write (.HostFeaturesSel 0) [1, 0] = none ∧
    VirtioNet.new.register_write (.MagicValue 0) [1, 0, 0, 0] = .registerError ∧
    VirtioNet.new.virtio_mmio_write (.MagicValue 0) [1, 0, 0, 0] = some VirtioNet.new := by decide

/-- C7: on a state with interrupt-status bits 0 and 1 pending, an
InterruptStatus read returns the constant word 0 — the read arm computes the
atomic load of the bitmask and discards it — and an InterruptAck write naming
bit 0 leaves the state (bitmask included) unchanged, so set bits are neither
visible to the driver nor clearable. -/
theorem interrupt_status_read_ignores_bitmask :
    busyState.device_config.virtio_config.interrupt_status = 3 ∧
    busyState.register_read (.InterruptStatus 0) [9, 9, 9, 9] = .ok [0, 0, 0, 0] ∧
    busyState.virtio_mmio_write (.InterruptAck 0) [1, 0, 0, 0] = some busyState := by decide

/-- C8: the constructor passes `vec![]` to `VirtioConfig::new`, so the device
has zero virtqueues, and with the initial queue selector 0 a QueueNum or
QueuePfn write indexes the empty queue vector and panics, the panic escaping
the MMIO dispatch boundary. -/
theorem constructed_device_has_no_queues :
    VirtioNetConfig.new.virtio_config.queues.length = 0 ∧
    VirtioNet.new.register_write (.QueueNum 0) [0, 1] = .panicked ∧
    VirtioNet.new.virtio_mmio_write (.QueueNum 0) [0, 1] = none ∧
    VirtioNet.new.virtio_mmio_write (.QueuePfn 0) [1, 0, 0, 0] = none := by decide

/-- C9 counterexample: on a state with guest page size 4096, a selected queue
and descriptor-table address 4096 (both halves shown), a QueuePfn write of
pfn 1048576 leaves the queue with low word 0 and high word 0 — the 32-bit
product 1048576 × 4096 = 2^32 wraps to 0 and the high half is never written —
so the stored 64-bit address lo + 2^32·hi = 0, while the exact integer product
is 4294967296: the address is not the product. -/
theorem queue_pfn_overflow_wraps :
    (busyState.device_config.virtio_config.queues.getD 0 default).desc_table_hi = 0 ∧
    (match busyState.register_write (.QueuePfn 0) [0, 0, 16, 0] with
     | .ok s => some ((s.device_config.virtio_config.queues.getD 0 default).desc_table_lo,
                      (s.device_config.virtio_config.queues.getD 0 default).desc_table_hi)
     | _ => none) = some (0, 0) ∧
    fromLeBytes [0, 0, 16, 0] = 1048576 ∧
    fromLeBytes (([0, 0, 16, 0] : List Nat).take 4) *
      (busyState.device_config.guest_page_size % 65536) % 4294967296 = 0 ∧
    (0 + 4294967296 * 0 : Nat) ≠ 1048576 * 4096 := by decide

/-- C9 (amended): for every state whose selected queue index is in bounds and
every write buffer of at least 4 bytes, the QueuePfn write succeeds and stores
into the selected queue's descriptor-table LOW 32-bit word the value
`(pfn * (page_size mod 2^16)) mod 2^32` — the page size is held in 16 bits and
the product is 32-bit wrapping arithmetic — while the HIGH 32-bit word of the
address is left untouched, so the stored 64-bit address equals the exact
product only when that product fits in 32 bits and the high word was already
0; the queue's ring size and the number of queues are unchanged. -/
theorem queue_pfn_write_wraps_mod_u32 (s : VirtioNet) (o : Nat) (data : List Nat)
    (h1 : s.device_config.virtio_config.queue_select <
      s.device_config.virtio_config.queues.length)
    (h2 : 4 ≤ data.length) :
    ∃ s', s.register_write (.QueuePfn o) data = .ok s' ∧
      (s'.device_config.virtio_config.queues.getD
          s.device_config.virtio_config.queue_select default).desc_table_lo =
        (fromLeBytes (data.take 4) * (s.device_config.guest_page_size % 65536)) %
          4294967296 ∧
      (s'.device_config.virtio_config.queues.getD
          s.device_config.virtio_config.queue_select default).desc_table_hi =
        (s.device_config.virtio_config.queues.getD
          s.device_config.virtio_config.queue_select default).desc_table_hi ∧
      (s'.device_config.virtio_config.queues.getD
          s.device_config.virtio_config.queue_select default).size =
        (s.device_config.virtio_config.queues.getD
          s.device_config.virtio_config.queue_select default).size ∧
      s'.device_config.virtio_config.queues.length =
        s.device_config.virtio_config.queues.length := by
  simp only [VirtioNet.register_write]
  rw [if_neg (by omega), if_neg (by omega)]
  refine ⟨_, rfl, ?_, ?_, ?_, ?_⟩
  · simp [List.getD, List.getElem?_set_eq_of_lt _ h1, Queue.set_desc_table_address]
  · simp [List.getD, List.getElem?_set_eq_of_lt _ h1, Queue.set_desc_table_address]
  · simp [List.getD, List.getElem?_set_eq_of_lt _ h1, Queue.set_desc_table_address]
  · simp

/-- C9 witness: the amended theorem applied at the concrete overflowing input
of the counterexample — busyState, pfn 1048576, page size 4096. -/
theorem queue_pfn_write_wraps_mod_u32_witness :
    busyState.device_config.virtio_config.queue_select <
      busyState.device_config.virtio_config.queues.length ∧
    4 ≤ ([0, 0, 16, 0] : List Nat).length ∧
    (∃ s', busyState.register_write (.QueuePfn 0) [0, 0, 16, 0] = .ok s' ∧
      (s'.device_config.virtio_config.queues.getD
          busyState.device_config.virtio_config.queue_select default).desc_table_lo =
        (fromLeBytes (([0, 0, 16, 0] : List Nat).take 4) *
          (busyState.device_config.guest_page_size % 65536)) % 4294967296 ∧
      (s'.device_config.virtio_config.queues.getD
          busyState.device_config.virtio_config.queue_select default).desc_table_hi =
        (busyState.device_config.virtio_config.queues.getD
          busyState.device_config.virtio_config.queue_select default).desc_table_hi ∧
      (s'.device_config.virtio_config.queues.getD
          busyState.device_config.virtio_config.queue_select default).size =
        (busyState.device_config.virtio_config.queues.getD
          busyState.device_config.virtio_config.queue_select default).size ∧
      s'.device_config.virtio_config.queues.length =
        busyState.device_config.virtio_config.queues.length) :=
  ⟨by decide, by decide,
    queue_pfn_write_wraps_mod_u32 busyState 0 [0, 0, 16, 0] (by decide) (by decide)⟩

/-- C10: a completed MMIO read leaves the device state unchanged — whenever
`virtio_mmio_read` returns (it can only panic on a buffer whose length differs
from a register's width), the state it returns is exactly the state it was
given, at every offset and for every buffer. -/
theorem mmio_read_preserves_state (s : VirtioNet) (off : VirtioMmioOffset)
    (data : List Nat) (s' : VirtioNet) (d : List Nat)
    (h : s.virtio_mmio_read off data = some (s', d)) : s' = s := by
  unfold VirtioNet.virtio_mmio_read at h
  split at h
  · split at h <;> simp_all
  · simp_all

/-- C10 witness: the preservation theorem applied at a concrete Status read of
the fresh device. -/
theorem mmio_read_preserves_state_witness :
    VirtioNet.new.virtio_mmio_read (.Status 0) [0, 0, 0, 0] =
      some (VirtioNet.new, [0, 0, 0, 0]) ∧ VirtioNet.new = VirtioNet.new :=
  ⟨by decide, mmio_read_preserves_state VirtioNet.new (.Status 0) [0, 0, 0, 0]
    VirtioNet.new [0, 0, 0, 0] (by decide)⟩
